import Mathlib

/-!
Shallow embedding of the api-gateway backend (app/main.py, app/config.py,
app/services/weather_service.py, app/services/time_service.py,
app/services/openai_service.py, app/models/schemas.py) and proofs about it.

JSON values are modelled with rational numbers for the numeric payloads,
instants as natural epoch readings, and the Python exception discipline as an
explicit error type: the body of each handler is a total function from its
inputs (the upstream call, the clock) to an `Outcome` that distinguishes a
successful 200 body, a raised `HTTPException`, and an exception escaping all
`except` clauses.
-/

namespace ApiGateway

/-- A JSON value as produced by `response.json()`. -/
inductive Json where
  | null
  | bool (b : Bool)
  | num (q : ℚ)
  | str (s : String)
  | arr (elems : List Json)
  | obj (fields : List (String × Json))

/-- The Python exception classes that can arise in the service bodies.
`requestException` stands for `requests.RequestException` and its subclasses
(connection errors, `raise_for_status` on non-2xx, JSON decode failures);
the payload is the textual description `str(e)`. -/
inductive PyError where
  | requestException (msg : String)
  | keyError (msg : String)
  | indexError (msg : String)
  | typeError (msg : String)
  | valueError (msg : String)
  | attributeError (msg : String)
deriving DecidableEq

/-- The observable outcome of one request handler: a 200 body, a raised
`HTTPException status detail`, or an exception that escaped every `except`
clause of the handler. -/
inductive Outcome (α : Type) where
  | ok (value : α)
  | httpError (status : Nat) (detail : String)
  | unhandled (e : PyError)

/-- Whether an outcome is a successful (200) response. -/
def Outcome.isOk {α : Type} : Outcome α → Bool
  | .ok _ => true
  | .httpError _ _ => false
  | .unhandled _ => false

/-- Python `d.get(key, default)`: on a dict, the value stored under the first
occurrence of the key, or the default; on any non-dict value the attribute
access `.get` raises `AttributeError`. -/
def dict_get (j : Json) (key : String) (default : Json) : Except PyError Json :=
  match j with
  | .obj fields => .ok ((fields.lookup key).getD default)
  | _ => .error (.attributeError ("object has no attribute get: " ++ key))

/-- Python `x[0]`: first element of a list (IndexError when empty), first
character of a string (IndexError when empty), `KeyError` on a dict without
the key `0`, `TypeError` on non-subscriptable values. -/
def pyIndex0 : Json → Except PyError Json
  | .arr [] => .error (.indexError "list index out of range")
  | .arr (x :: _) => .ok x
  | .str s =>
    match s.data with
    | [] => .error (.indexError "string index out of range")
    | c :: _ => .ok (.str (String.mk [c]))
  | .obj _ => .error (.keyError "0")
  | .num _ => .error (.typeError "object is not subscriptable: float")
  | .bool _ => .error (.typeError "object is not subscriptable: bool")
  | .null => .error (.typeError "object is not subscriptable: NoneType")

/-- Digits to a natural number, most significant first. -/
def digitsToNat (l : List Char) : Nat :=
  l.foldl (fun acc c => acc * 10 + (c.toNat - 48)) 0

/-- Decimal-literal parsing as done by Python `float(str)`: optional
surrounding whitespace, optional sign, digits with at most one decimal point
and at least one digit. (Exponents, `inf`, `nan` and underscores are not
modelled; the strings this development evaluates on avoid them.) -/
def parseFloat (s : String) : Option ℚ :=
  let t := ((s.data.dropWhile Char.isWhitespace).reverse.dropWhile Char.isWhitespace).reverse
  let signed : ℚ × List Char :=
    match t with
    | '-' :: cs => (-1, cs)
    | '+' :: cs => (1, cs)
    | cs => (1, cs)
  match (signed.2.splitOn '.') with
  | [ds] =>
    if ds ≠ [] ∧ ds.all Char.isDigit then
      some (signed.1 * (digitsToNat ds : ℚ))
    else none
  | [is, fs] =>
    if (is ++ fs) ≠ [] ∧ (is ++ fs).all Char.isDigit then
      some (signed.1 * ((digitsToNat is : ℚ) + (digitsToNat fs : ℚ) / ((10 ^ fs.length : ℕ) : ℚ)))
    else none
  | _ => none

/-- Python `float(x)` on a JSON value: identity on numbers, 0/1 on booleans,
decimal parsing on strings (`ValueError` when unparsable), `TypeError` on
`None`, lists and dicts. -/
def pyFloat : Json → Except PyError ℚ
  | .num q => .ok q
  | .bool b => .ok (if b then 1 else 0)
  | .str s =>
    match parseFloat s with
    | some q => .ok q
    | none => .error (.valueError ("could not convert string to float: " ++ s))
  | .null => .error (.typeError "float argument must be a string or a real number, not NoneType")
  | .arr _ => .error (.typeError "float argument must be a string or a real number, not list")
  | .obj _ => .error (.typeError "float argument must be a string or a real number, not dict")

/-- `float(x) if x is not None else None` as used on lines 39-40 of
weather_service.py. -/
def optFloat (j : Json) : Except PyError (Option ℚ) :=
  match j with
  | .null => .ok none
  | v => (pyFloat v).map some

/-- app/config.py `Settings`: the four fields, with `CUNEO_LAT`/`CUNEO_LON`
hardcoded and the other two read from the process environment with defaults. -/
structure Settings where
  OPENAI_API_KEY : String
  CUNEO_LAT : ℚ
  CUNEO_LON : ℚ
  ENVIRONMENT : String

/-- app/config.py `settings = Settings()`, parameterised by the process
environment. -/
def mkSettings (env : String → Option String) : Settings where
  OPENAI_API_KEY := (env "OPENAI_API_KEY").getD ""
  CUNEO_LAT := 44.384
  CUNEO_LON := 7.543
  ENVIRONMENT := (env "ENVIRONMENT").getD "development"

/-- The query parameters of the outbound weather GET
(weather_service.py lines 16-22). -/
structure WeatherParams where
  latitude : ℚ
  longitude : ℚ
  hourly : List String
  timezone : String
  current_weather : Bool
deriving DecidableEq

/-- The literal `params` dict built in `get_cuneo_weather`. -/
def weatherParams : WeatherParams where
  latitude := 44.384
  longitude := 7.543
  hourly := ["temperature_2m", "relative_humidity_2m"]
  timezone := "Europe/Rome"
  current_weather := true

/-- app/models/schemas.py `WeatherResponse`, with the timestamp as an epoch
clock reading. -/
structure WeatherResponse where
  city : String
  temperature : Option ℚ
  humidity : Option ℚ
  timestamp : Nat

/-- The parsing part of `get_cuneo_weather` (weather_service.py lines 27-42),
in Python evaluation order: the `current_weather` and `temperature` lookups
(lines 30-31), the `hourly` lookups and `[0]` indexing (lines 34-35), then
`float(temperature)` and `float(humidity)` inside the result dict literal
(lines 37-42). -/
def extractWeather (data : Json) (now : Nat) : Except PyError WeatherResponse :=
  match dict_get data "current_weather" (.obj []) with
  | .error e => .error e
  | .ok current_weather =>
    match dict_get current_weather "temperature" .null with
    | .error e => .error e
    | .ok temperature =>
      match dict_get data "hourly" (.obj []) with
      | .error e => .error e
      | .ok hourly_data =>
        match dict_get hourly_data "relative_humidity_2m" (.arr [.null]) with
        | .error e => .error e
        | .ok humiditySeries =>
          match pyIndex0 humiditySeries with
          | .error e => .error e
          | .ok humidity =>
            match optFloat temperature with
            | .error e => .error e
            | .ok temp_val =>
              match optFloat humidity with
              | .error e => .error e
              | .ok hum_val =>
                .ok { city := "Cuneo", temperature := temp_val,
                      humidity := hum_val, timestamp := now }

/-- The two `except` clauses of `get_cuneo_weather` (lines 44-53):
`requests.RequestException` becomes a 500 with the "recupero" message,
`(KeyError, IndexError, TypeError)` a 500 with the "processamento" message,
and every other exception (ValueError, AttributeError) escapes the handler. -/
def handleWeatherErr : PyError → Outcome WeatherResponse
  | .requestException m => .httpError 500 ("Errore nel recupero dei dati meteo: " ++ m)
  | .keyError m => .httpError 500 ("Errore nel processamento dei dati meteo: " ++ m)
  | .indexError m => .httpError 500 ("Errore nel processamento dei dati meteo: " ++ m)
  | .typeError m => .httpError 500 ("Errore nel processamento dei dati meteo: " ++ m)
  | .valueError m => .unhandled (.valueError m)
  | .attributeError m => .unhandled (.attributeError m)

/-- weather_service.py `WeatherService.get_cuneo_weather`. The module-level
`settings` import is passed in (the body never reads it); the transport —
`requests.get` with `params`, `raise_for_status`, `response.json()` — is a
function from the query parameters to either a `RequestException` text or a
parsed JSON body; `now` is the `datetime.now()` clock reading. -/
def get_cuneo_weather (_s : Settings)
    (request : WeatherParams → Except String Json) (now : Nat) :
    Outcome WeatherResponse :=
  match request weatherParams with
  | .error m => handleWeatherErr (.requestException m)
  | .ok data =>
    match extractWeather data now with
    | .ok r => .ok r
    | .error e => handleWeatherErr e

/-- The temperature part of the extraction on its own (lines 30-31 plus the
`float` on line 39): used to phrase hypotheses about responses whose
temperature parsing succeeds. -/
def temperature_extraction (data : Json) : Except PyError (Option ℚ) :=
  match dict_get data "current_weather" (.obj []) with
  | .error e => .error e
  | .ok current_weather =>
    match dict_get current_weather "temperature" .null with
    | .error e => .error e
    | .ok temperature => optFloat temperature

/-- The humidity part of the extraction on its own (lines 34-35 plus the
`float` on line 40): used to phrase hypotheses about responses whose
humidity parsing succeeds. -/
def humidity_extraction (data : Json) : Except PyError (Option ℚ) :=
  match dict_get data "hourly" (.obj []) with
  | .error e => .error e
  | .ok hourly_data =>
    match dict_get hourly_data "relative_humidity_2m" (.arr [.null]) with
    | .error e => .error e
    | .ok humiditySeries =>
      match pyIndex0 humiditySeries with
      | .error e => .error e
      | .ok humidity => optFloat humidity

/-- The outbound chat-completion payload
(openai_service.py lines 16-22). -/
structure ChatPayload where
  model : String
  messages : List (String × String)
  max_tokens : Nat

/-- The payload literal built by `get_chat_response` for an input message:
fixed model, a single user-role message, fixed token cap. -/
def chatPayload (message : String) : ChatPayload where
  model := "gpt-3.5-turbo"
  messages := [("user", message)]
  max_tokens := 150

/-- app/models/schemas.py `ChatResponse`. -/
structure ChatResponse where
  response : String
  timestamp : Nat

/-- openai_service.py `OpenAIService.get_chat_response`. The upstream call is
a function from the payload to either the text of a raised exception (the
`except Exception` clause catches every kind) or the list of completion
choices, each carried by its `message.content`. An empty choices list makes
`response.choices[0]` raise IndexError, which the same clause catches. -/
def get_chat_response (message : String)
    (call : ChatPayload → Except String (List String)) (now : Nat) :
    Outcome ChatResponse :=
  match call (chatPayload message) with
  | .error m => .httpError 500 ("Errore nella comunicazione con OpenAI: " ++ m)
  | .ok [] => .httpError 500 ("Errore nella comunicazione con OpenAI: list index out of range")
  | .ok (c :: _) => .ok { response := c, timestamp := now }

/-- A timezone-aware instant as returned by `datetime.now(tz)`: the epoch
instant (which the civil-zone conversion preserves) tagged with the zone it
is rendered in. -/
structure AwareDatetime where
  instant : Nat
  zone : String
deriving DecidableEq

/-- `datetime.now(tz)`: reads the clock; when a zone is passed the result is
rendered in that zone, otherwise in the host zone. Either way the instant is
the clock reading. -/
def datetime_now (clock : Nat) (hostTz : String) (tz : Option String) : AwareDatetime where
  instant := clock
  zone := tz.getD hostTz

/-- app/models/schemas.py `TimeResponse`. -/
structure TimeResponse where
  current_time : AwareDatetime
  timezone : String
deriving DecidableEq

/-- time_service.py `TimeService.get_current_time`: `datetime.now` with the
`pytz.timezone` object for Europe/Rome, whose `str` is the zone identifier
itself. -/
def get_current_time (clock : Nat) (hostTz : String) : TimeResponse where
  current_time := datetime_now clock hostTz (some "Europe/Rome")
  timezone := "Europe/Rome"

/-- main.py `health_check`: the constant body, served with status 200. -/
def health_check : Nat × List (String × String) :=
  (200, [("status", "healthy")])

/-- The four routes of main.py. -/
inductive Request where
  | weather
  | time
  | chat (message : String)
  | health

/-- Everything the process can observe when serving one request: settings,
the two upstreams, the clock and the host timezone. -/
structure World where
  settings : Settings
  weatherRequest : WeatherParams → Except String Json
  chatCall : ChatPayload → Except String (List String)
  clock : Nat
  hostTz : String

/-- The response of one route. -/
inductive ApiResult where
  | weather (r : Outcome WeatherResponse)
  | time (r : TimeResponse)
  | chat (r : Outcome ChatResponse)
  | health (status : Nat) (body : List (String × String))

/-- main.py routing: each handler delegates to its service; `health_check`
returns its constant. -/
def handle (w : World) : Request → ApiResult
  | .weather => .weather (get_cuneo_weather w.settings w.weatherRequest w.clock)
  | .time => .time (get_current_time w.clock w.hostTz)
  | .chat m => .chat (get_chat_response m w.chatCall w.clock)
  | .health => .health health_check.1 health_check.2

/-! ### Concrete fixtures for witnesses and counterexamples -/

/-- An empty process environment. -/
def settings0 : Settings := mkSettings fun _ => none

/-- An environment that sets both configurable fields. -/
def settings1 : Settings := mkSettings fun k =>
  if k = "OPENAI_API_KEY" then some "sk-test" else
  if k = "ENVIRONMENT" then some "production" else none

/-- A well-formed upstream weather body: current temperature 21.5, hourly
humidity series starting at 55. -/
def dataGood : Json :=
  .obj [("current_weather", .obj [("temperature", .num 21.5)]),
        ("hourly", .obj [("temperature_2m", .arr [.num 21.5]),
                         ("relative_humidity_2m", .arr [.num 55, .num 60])])]

/-- A transport that returns `dataGood`. -/
def reqGood : WeatherParams → Except String Json := fun _ => .ok dataGood

/-- An upstream body with no "current_weather" key and an EMPTY hourly
humidity series. -/
def dataNoCW : Json :=
  .obj [("hourly", .obj [("relative_humidity_2m", .arr [])])]

/-- A transport that returns `dataNoCW`. -/
def reqNoCW : WeatherParams → Except String Json := fun _ => .ok dataNoCW

/-- An upstream body with a fine current-weather block but an EMPTY hourly
humidity series. -/
def dataEmptySeries : Json :=
  .obj [("current_weather", .obj [("temperature", .num 21)]),
        ("hourly", .obj [("relative_humidity_2m", .arr [])])]

/-- A transport that returns `dataEmptySeries`. -/
def reqEmptySeries : WeatherParams → Except String Json := fun _ => .ok dataEmptySeries

/-- A structurally malformed upstream body: the temperature is a non-numeric
string, so `float(temperature)` raises ValueError. -/
def dataBadTemp : Json :=
  .obj [("current_weather", .obj [("temperature", .str "abc")])]

/-- A transport that returns `dataBadTemp`. -/
def reqBadTemp : WeatherParams → Except String Json := fun _ => .ok dataBadTemp

/-- A transport that fails (connection error / non-2xx). -/
def reqErr : WeatherParams → Except String Json := fun _ => .error "boom"

/-- A body without "current_weather" and without an "hourly" block. -/
def dataNoCWNoHourly : Json := .obj [("latitude", .num 44.384)]

/-- A transport that returns `dataNoCWNoHourly`. -/
def reqNoCWNoHourly : WeatherParams → Except String Json := fun _ => .ok dataNoCWNoHourly

/-- A chat upstream returning one choice. -/
def chatCallGood : ChatPayload → Except String (List String) := fun _ => .ok ["ciao!"]

/-- A chat upstream that raises. -/
def chatCallErr : ChatPayload → Except String (List String) := fun _ => .error "rate limit"

/-- A body with a current-weather block but no "hourly" block at all. -/
def dataCWOnly : Json := .obj [("current_weather", .obj [("temperature", .num 21.5)])]

/-- A transport that returns `dataCWOnly`. -/
def reqCWOnly : WeatherParams → Except String Json := fun _ => .ok dataCWOnly

/-! ### Helper lemmas -/

/-- `dict_get` on a dict always succeeds with the stored or default value. -/
theorem dict_get_obj (fields : List (String × Json)) (key : String) (default : Json) :
    dict_get (.obj fields) key default = .ok ((fields.lookup key).getD default) := rfl

/-- A missing value stays absent: `float(x) if x is not None else None` on
`None`. -/
theorem optFloat_null : optFloat .null = .ok none := rfl

/-- `handleWeatherErr` never produces a 200 body. -/
theorem handleWeatherErr_ne_ok (e : PyError) (r : WeatherResponse) :
    handleWeatherErr e ≠ .ok r := by
  cases e <;> simp [handleWeatherErr]

/-- Every successful extraction carries the constant city and the clock
reading passed in, whatever the upstream body held. -/
theorem extractWeather_ok_shape (data : Json) (now : Nat) (r : WeatherResponse)
    (h : extractWeather data now = .ok r) : r.city = "Cuneo" ∧ r.timestamp = now := by
  unfold extractWeather at h
  repeat' split at h
  all_goals first
    | exact Except.noConfusion h
    | (injection h with h; subst h; exact ⟨rfl, rfl⟩)

/-! ### Claim theorems -/

/-- Claim C1: for every upstream weather response containing a current-weather
block with a temperature and a non-empty hourly relative-humidity series,
`get_cuneo_weather` returns a reading whose temperature equals the upstream
current-weather temperature and whose humidity equals the first entry of the
upstream hourly humidity series, with no unit conversion applied to either
value. -/
theorem get_cuneo_weather_exact
    (s : Settings) (req : WeatherParams → Except String Json) (now : Nat)
    (fields cw hourlyFields : List (String × Json)) (t h : ℚ) (rest : List Json)
    (hreq : req weatherParams = .ok (.obj fields))
    (hcw : fields.lookup "current_weather" = some (.obj cw))
    (ht : cw.lookup "temperature" = some (.num t))
    (hh : fields.lookup "hourly" = some (.obj hourlyFields))
    (hser : hourlyFields.lookup "relative_humidity_2m" = some (.arr (.num h :: rest))) :
    get_cuneo_weather s req now =
      .ok { city := "Cuneo", temperature := some t, humidity := some h, timestamp := now } := by
  simp [get_cuneo_weather, hreq, extractWeather, dict_get, hcw, ht, hh, hser,
        pyIndex0, optFloat, pyFloat, Except.map]

/-- Witness for C1 at the concrete upstream body `dataGood`. -/
theorem get_cuneo_weather_exact_witness :
    get_cuneo_weather settings0 reqGood 5 =
      .ok { city := "Cuneo", temperature := some 21.5, humidity := some 55, timestamp := 5 } :=
  get_cuneo_weather_exact settings0 reqGood 5
    [("current_weather", .obj [("temperature", .num 21.5)]),
     ("hourly", .obj [("temperature_2m", .arr [.num 21.5]),
                      ("relative_humidity_2m", .arr [.num 55, .num 60])])]
    [("temperature", .num 21.5)]
    [("temperature_2m", .arr [.num 21.5]), ("relative_humidity_2m", .arr [.num 55, .num 60])]
    21.5 55 [.num 60] rfl rfl rfl rfl rfl

/-- Claim C5: for every input message, `get_chat_response` sends a payload with
exactly one message, role "user" and content equal to the input, the fixed
model "gpt-3.5-turbo" and token cap 150; and on success the response field is
the content of the upstream's first completion choice verbatim. -/
theorem get_chat_response_payload_and_first_choice
    (message : String) (call : ChatPayload → Except String (List String)) (now : Nat)
    (c : String) (rest : List String)
    (h : call (chatPayload message) = .ok (c :: rest)) :
    (chatPayload message).model = "gpt-3.5-turbo" ∧
    (chatPayload message).messages = [("user", message)] ∧
    (chatPayload message).max_tokens = 150 ∧
    get_chat_response message call now = .ok { response := c, timestamp := now } := by
  refine ⟨rfl, rfl, rfl, ?_⟩
  simp [get_chat_response, h]

/-- Witness for C5 at a concrete chat upstream with one choice. -/
theorem get_chat_response_payload_witness :
    (chatPayload "ciao").model = "gpt-3.5-turbo" ∧
    (chatPayload "ciao").messages = [("user", "ciao")] ∧
    (chatPayload "ciao").max_tokens = 150 ∧
    get_chat_response "ciao" chatCallGood 3 = .ok { response := "ciao!", timestamp := 3 } :=
  get_chat_response_payload_and_first_choice "ciao" chatCallGood 3 "ciao!" [] rfl

/-- Claim C6: every error raised during the chat upstream call is translated
uniformly into a 500 whose detail carries the stringified cause; no
chat-upstream error escapes the handler unhandled. -/
theorem get_chat_response_error_to_500
    (message : String) (call : ChatPayload → Except String (List String)) (now : Nat)
    (m : String) (h : call (chatPayload message) = .error m) :
    get_chat_response message call now =
      .httpError 500 ("Errore nella comunicazione con OpenAI: " ++ m) ∧
    ∀ e, get_chat_response message call now ≠ .unhandled e := by
  refine ⟨by simp [get_chat_response, h], fun e => ?_⟩
  simp [get_chat_response, h]

/-- Witness for C6 at a concrete failing chat upstream. -/
theorem get_chat_response_error_witness :
    get_chat_response "ciao" chatCallErr 3 =
      .httpError 500 ("Errore nella comunicazione con OpenAI: " ++ "rate limit") ∧
    ∀ e, get_chat_response "ciao" chatCallErr 3 ≠ .unhandled e :=
  get_chat_response_error_to_500 "ciao" chatCallErr 3 "rate limit" rfl

/-- Claim C7: whatever the host timezone, the time endpoint's timezone field is
the fixed identifier "Europe/Rome", and the returned instant is the clock
reading rendered in that zone (the civil conversion preserves the instant). -/
theorem get_current_time_zone_fixed (clock : Nat) (hostTz : String) :
    (get_current_time clock hostTz).timezone = "Europe/Rome" ∧
    (get_current_time clock hostTz).current_time =
      datetime_now clock hostTz (some "Europe/Rome") ∧
    (get_current_time clock hostTz).current_time.instant = clock ∧
    (get_current_time clock hostTz).current_time.zone = "Europe/Rome" :=
  ⟨rfl, rfl, rfl, rfl⟩

/-- Claim C8: with a non-decreasing system clock, the instant returned by a
later call to the time endpoint is greater than or equal to the instant
returned by an earlier one, whatever the host timezone of either call. -/
theorem get_current_time_monotone (c1 c2 : Nat) (tz1 tz2 : String) (h : c1 ≤ c2) :
    (get_current_time c1 tz1).current_time.instant ≤
      (get_current_time c2 tz2).current_time.instant := h

/-- Witness for C8 at concrete clock readings 1 and 2. -/
theorem get_current_time_monotone_witness :
    (1 : Nat) ≤ 2 ∧
    (get_current_time 1 "UTC").current_time.instant ≤
      (get_current_time 2 "America/New_York").current_time.instant :=
  ⟨by decide, get_current_time_monotone 1 2 "UTC" "America/New_York" (by decide)⟩

/-- Claim C9: the health route returns status 200 with body
`status: healthy` in every world — independent of the weather, time and chat
subsystems — so two runs in any two environments produce the identical
response. -/
theorem handle_health_constant (w w2 : World) :
    handle w .health = .health 200 [("status", "healthy")] ∧
    handle w .health = handle w2 .health :=
  ⟨rfl, rfl⟩

/-- Claim C2 (counterexample): an upstream body that omits "current_weather"
but carries an empty hourly humidity series makes the handler raise on
`[...][0]` and answer 500, not 200 — refuting the claim for arbitrary bodies
without the key. -/
theorem no_current_weather_counterexample :
    get_cuneo_weather settings0 reqNoCW 0 =
      .httpError 500 "Errore nel processamento dei dati meteo: list index out of range" ∧
    Outcome.isOk (get_cuneo_weather settings0 reqNoCW 0) = false :=
  ⟨rfl, rfl⟩

/-- Claim C2 (amended): for every upstream object body without the
"current_weather" key whose humidity extraction does not raise, the request
still returns 200 with the temperature absent (`none`), not zero and not any
default. -/
theorem no_current_weather_gives_none_temperature
    (s : Settings) (req : WeatherParams → Except String Json) (now : Nat)
    (fields : List (String × Json)) (hv : Option ℚ)
    (hreq : req weatherParams = .ok (.obj fields))
    (hno : fields.lookup "current_weather" = none)
    (hhum : humidity_extraction (.obj fields) = .ok hv) :
    get_cuneo_weather s req now =
      .ok { city := "Cuneo", temperature := none, humidity := hv, timestamp := now } := by
  unfold get_cuneo_weather
  rw [hreq]
  unfold extractWeather humidity_extraction at *
  simp only [dict_get_obj, hno, Option.getD_none, List.lookup] at hhum ⊢
  cases h1 : dict_get ((fields.lookup "hourly").getD (.obj [])) "relative_humidity_2m"
      (.arr [.null]) with
  | error e => rw [h1] at hhum; exact Except.noConfusion hhum
  | ok hs =>
    rw [h1] at hhum
    dsimp only at hhum ⊢
    cases h2 : pyIndex0 hs with
    | error e => rw [h2] at hhum; exact Except.noConfusion hhum
    | ok humidity =>
      rw [h2] at hhum
      dsimp only [optFloat] at hhum ⊢
      simp [hhum]

/-- Witness for the amended C2 at a body with neither "current_weather" nor
"hourly". -/
theorem no_current_weather_witness :
    get_cuneo_weather settings0 reqNoCWNoHourly 7 =
      .ok { city := "Cuneo", temperature := none, humidity := none, timestamp := 7 } :=
  no_current_weather_gives_none_temperature settings0 reqNoCWNoHourly 7
    [("latitude", .num 44.384)] none rfl rfl rfl

/-- Claim C3 (counterexample): a body whose hourly relative-humidity series is
present but EMPTY raises IndexError on `[...][0]`, which the handler converts
to a 500 — the request fails instead of degrading to an absent humidity. -/
theorem empty_humidity_series_counterexample :
    get_cuneo_weather settings0 reqEmptySeries 0 =
      .httpError 500 "Errore nel processamento dei dati meteo: list index out of range" ∧
    Outcome.isOk (get_cuneo_weather settings0 reqEmptySeries 0) = false :=
  ⟨rfl, rfl⟩

/-- Claim C3 (amended): when the hourly block or the relative-humidity series
is MISSING (as opposed to present but empty), the request does not fail:
provided the temperature part parses, it returns 200 with humidity absent. -/
theorem missing_humidity_series_gives_none
    (s : Settings) (req : WeatherParams → Except String Json) (now : Nat)
    (fields : List (String × Json)) (tv : Option ℚ)
    (hreq : req weatherParams = .ok (.obj fields))
    (htemp : temperature_extraction (.obj fields) = .ok tv)
    (hser : fields.lookup "hourly" = none ∨
      ∃ hf, fields.lookup "hourly" = some (.obj hf) ∧
        hf.lookup "relative_humidity_2m" = none) :
    get_cuneo_weather s req now =
      .ok { city := "Cuneo", temperature := tv, humidity := none, timestamp := now } := by
  unfold get_cuneo_weather
  rw [hreq]
  unfold extractWeather temperature_extraction at *
  simp only [dict_get_obj] at htemp ⊢
  cases h1 : dict_get ((fields.lookup "current_weather").getD (.obj [])) "temperature"
      .null with
  | error e => rw [h1] at htemp; exact Except.noConfusion htemp
  | ok tj =>
    rw [h1] at htemp
    dsimp only at htemp ⊢
    rcases hser with hser | ⟨hf, hser, hnone⟩
    · simp [hser, dict_get_obj, List.lookup, pyIndex0, htemp, optFloat_null]
    · simp [hser, hnone, dict_get_obj, List.lookup, pyIndex0, htemp, optFloat_null]

/-- Witness for the amended C3 at a body with a current-weather block and no
"hourly" block. -/
theorem missing_humidity_series_witness :
    get_cuneo_weather settings0 reqCWOnly 9 =
      .ok { city := "Cuneo", temperature := some 21.5, humidity := none, timestamp := 9 } :=
  missing_humidity_series_gives_none settings0 reqCWOnly 9
    [("current_weather", .obj [("temperature", .num 21.5)])] (some 21.5)
    rfl rfl (Or.inl rfl)

/-- Claim C4 (counterexample): a structurally malformed body whose temperature
is the non-numeric string "abc" makes `float(temperature)` raise ValueError,
which no `except` clause of the handler catches: the exception escapes instead
of becoming the claimed 500 with detail. -/
theorem weather_valueerror_escapes_counterexample :
    get_cuneo_weather settings0 reqBadTemp 0 =
      .unhandled (.valueError "could not convert string to float: abc") ∧
    Outcome.isOk (get_cuneo_weather settings0 reqBadTemp 0) = false :=
  ⟨rfl, rfl⟩

/-- Claim C4 (amended): every transport failure becomes exactly a 500 whose
detail carries the textual description of the exception; every 500 the
handler raises carries one of the two detail prefixes followed by that text;
but the only exceptions that can escape the handler are ValueError and
AttributeError — those raised by wrong-typed bodies outside the caught
`(KeyError, IndexError, TypeError)` family. -/
theorem weather_error_mapping
    (s : Settings) (req : WeatherParams → Except String Json) (now : Nat) :
    (∀ m, req weatherParams = .error m →
        get_cuneo_weather s req now =
          .httpError 500 ("Errore nel recupero dei dati meteo: " ++ m)) ∧
    (∀ st d, get_cuneo_weather s req now = .httpError st d →
        st = 500 ∧
        ∃ m, d = "Errore nel recupero dei dati meteo: " ++ m ∨
          d = "Errore nel processamento dei dati meteo: " ++ m) ∧
    (∀ e, get_cuneo_weather s req now = .unhandled e →
        (∃ m, e = .valueError m) ∨ (∃ m, e = .attributeError m)) := by
  refine ⟨fun m hm => by simp [get_cuneo_weather, hm, handleWeatherErr], ?_, ?_⟩
  · intro st d hd
    unfold get_cuneo_weather at hd
    cases hq : req weatherParams with
    | error m =>
      rw [hq] at hd
      simp [handleWeatherErr] at hd
      exact ⟨hd.1.symm, m, Or.inl hd.2.symm⟩
    | ok data =>
      rw [hq] at hd
      dsimp only at hd
      cases hx : extractWeather data now with
      | ok r => rw [hx] at hd; exact absurd hd (by simp)
      | error e =>
        rw [hx] at hd
        cases e <;> simp [handleWeatherErr] at hd
        · exact ⟨hd.1.symm, _, Or.inl hd.2.symm⟩
        · exact ⟨hd.1.symm, _, Or.inr hd.2.symm⟩
        · exact ⟨hd.1.symm, _, Or.inr hd.2.symm⟩
        · exact ⟨hd.1.symm, _, Or.inr hd.2.symm⟩
  · intro e he
    unfold get_cuneo_weather at he
    cases hq : req weatherParams with
    | error m => rw [hq] at he; simp [handleWeatherErr] at he
    | ok data =>
      rw [hq] at he
      dsimp only at he
      cases hx : extractWeather data now with
      | ok r => rw [hx] at he; exact absurd he (by simp)
      | error e2 =>
        rw [hx] at he
        cases e2 <;> simp [handleWeatherErr] at he
        · exact Or.inl ⟨_, he.symm⟩
        · exact Or.inr ⟨_, he.symm⟩

/-- Witness for the amended C4 at a concrete failing transport. -/
theorem weather_error_mapping_witness :
    get_cuneo_weather settings0 reqErr 0 =
      .httpError 500 ("Errore nel recupero dei dati meteo: " ++ "boom") :=
  (weather_error_mapping settings0 reqErr 0).1 "boom" rfl

/-- Claim C10: the outbound weather query always carries the hardcoded
coordinates 44.384/7.543; the result never depends on the imported settings
(so `CUNEO_LAT`/`CUNEO_LON` are never read) and only on the transport's answer
to that one query; and every successful reading carries the constant city
"Cuneo" and the server clock reading taken at response construction. -/
theorem weather_constants_and_timestamp
    (s1 s2 : Settings) (req req2 : WeatherParams → Except String Json) (now : Nat) :
    weatherParams.latitude = 44.384 ∧
    weatherParams.longitude = 7.543 ∧
    get_cuneo_weather s1 req now = get_cuneo_weather s2 req now ∧
    (req weatherParams = req2 weatherParams →
      get_cuneo_weather s1 req now = get_cuneo_weather s1 req2 now) ∧
    ∀ r, get_cuneo_weather s1 req now = .ok r → r.city = "Cuneo" ∧ r.timestamp = now := by
  refine ⟨rfl, rfl, rfl, ?_, ?_⟩
  · intro h
    unfold get_cuneo_weather
    rw [h]
  · intro r hr
    unfold get_cuneo_weather at hr
    cases hq : req weatherParams with
    | error m => rw [hq] at hr; exact absurd hr (handleWeatherErr_ne_ok _ _)
    | ok data =>
      rw [hq] at hr
      dsimp only at hr
      cases hx : extractWeather data now with
      | error e => rw [hx] at hr; exact absurd hr (handleWeatherErr_ne_ok _ _)
      | ok r2 =>
        rw [hx] at hr
        dsimp only at hr
        injection hr with hr
        subst hr
        exact extractWeather_ok_shape data now _ hx

/-- Witness for C10 at the concrete upstream body `dataGood`. -/
theorem weather_constants_witness :
    ({ city := "Cuneo", temperature := some 21.5, humidity := some 55,
       timestamp := 5 } : WeatherResponse).city = "Cuneo" ∧
    ({ city := "Cuneo", temperature := some 21.5, humidity := some 55,
       timestamp := 5 } : WeatherResponse).timestamp = 5 :=
  (weather_constants_and_timestamp settings0 settings1 reqGood reqGood 5).2.2.2.2 _ rfl

end ApiGateway
